import Mathlib

/-!
Verification of the serverless-next.js build/routing core against its source.

The embedding below translates the build pipeline of
`packages/libs/lambda-at-edge/src/build.ts` (the `Builder` class) and, where
the repository ships only tests for a component (the CloudFront
cache-behavior generator of `component.ts`), models the missing part from the
specification, as marked in the doc comments.

Strings are manipulated through their character lists so that every
definition evaluates inside the kernel.
-/

/-- Boolean test that `pre` is a prefix of `s`, over character lists. -/
def strStartsWith (s pre : String) : Bool :=
  pre.toList.isPrefixOf s.toList

/-- Boolean test that `suf` is a suffix of `s`, over character lists. -/
def strEndsWith (s suf : String) : Bool :=
  suf.toList.isSuffixOf s.toList

/-- Length of a string as the length of its character list. -/
def strLen (s : String) : Nat :=
  s.toList.length

/-- Drop the first `n` characters of a string. -/
def strDrop (s : String) (n : Nat) : String :=
  String.mk (s.toList.drop n)

/-- Drop the last `n` characters of a string. -/
def strDropRight (s : String) (n : Nat) : String :=
  String.mk (s.toList.take (s.toList.length - n))

/-- Auxiliary search: does `pat` occur as a contiguous sublist of `l`? -/
def listInfix (pat : List Char) : List Char → Bool
  | [] => pat.isEmpty
  | c :: rest => pat.isPrefixOf (c :: rest) || listInfix pat rest

/-- Boolean substring test, modelling JavaScript `s.indexOf(pat) !== -1`. -/
def strContainsSub (s pat : String) : Bool :=
  listInfix pat.toList s.toList

/-- Substring containment as a proposition: `sub` occurs inside `s`. -/
def ContainsStr (s sub : String) : Prop :=
  ∃ a b, s = a ++ sub ++ b

/-- Auxiliary splitter for `splitSegs`, accumulating the current segment. -/
def splitSegsAux : List Char → List Char → List String
  | [], acc => [String.mk acc.reverse]
  | c :: cs, acc =>
    if c = '/' then String.mk acc.reverse :: splitSegsAux cs []
    else splitSegsAux cs (c :: acc)

/-- Split a path string on the forward-slash separator. -/
def splitSegs (s : String) : List String :=
  splitSegsAux s.toList []

/-- Join path segments with the forward-slash separator. -/
def joinSegs : List String → String
  | [] => ""
  | [s] => s
  | s :: rest => s ++ "/" ++ joinSegs rest

/-- Insertion into an association list with JavaScript object-assignment
semantics: an existing key is overwritten in place, a new key is appended. -/
def insertAssoc (k : String) (v : α) : List (String × α) → List (String × α)
  | [] => [(k, v)]
  | (k2, v2) :: rest =>
    if k = k2 then (k, v) :: rest else (k2, v2) :: insertAssoc k v rest

/-! ### Modelled helper libraries

The modules under `lib/` (`isDynamicRoute`, `expressifyDynamicRoute`,
`pathToRegexStr`, `sortedRoutes`, `pathToPosix`) and
`routing/redirector.isTrailingSlashRedirect` are imported by `build.ts` but
their sources are not part of this snapshot, so they are modelled from the
specification. -/

/-- Modelled from the spec: a path segment is dynamic when it is bracketed,
as in `[name]`, `[...name]` or `[[...name]]` (spec 4.1). -/
def isDynamicSegment (s : String) : Bool :=
  strStartsWith s "[" && strEndsWith s "]"

/-- Modelled from the spec: `lib/isDynamicRoute` is absent from the
snapshot; a route is dynamic iff its template contains a bracketed segment
(spec 4.1). -/
def isDynamicRoute (route : String) : Bool :=
  (splitSegs route).any isDynamicSegment

/-- Modelled from the spec: translation of one bracketed segment into an
express-style parameter; catch-all and optional catch-all segments become
starred parameters (spec 4.1). -/
def expressifySegment (s : String) : String :=
  if strStartsWith s "[[..." && strEndsWith s "]]" then
    ":" ++ strDropRight (strDrop s 5) 2 ++ "*"
  else if strStartsWith s "[..." && strEndsWith s "]" then
    ":" ++ strDropRight (strDrop s 4) 1 ++ "*"
  else if strStartsWith s "[" && strEndsWith s "]" then
    ":" ++ strDropRight (strDrop s 1) 1
  else s

/-- Modelled from the spec: `lib/expressifyDynamicRoute` is absent from the
snapshot; it rewrites every bracketed segment of a dynamic route into an
express-style parameter segment (spec 4.1). -/
def expressifyDynamicRoute (route : String) : String :=
  joinSegs ((splitSegs route).map expressifySegment)

/-- Modelled from the spec: translation of one expressified segment into a
regex fragment; literals match verbatim, single parameters capture one
segment, starred parameters capture greedily (spec 4.1). -/
def segmentToRegex (s : String) : String :=
  if strStartsWith s ":" then
    if strEndsWith s "*" then "(.+)" else "([^/]+)"
  else s

/-- Modelled from the spec: `lib/pathToRegexStr` is absent from the
snapshot; it compiles an expressified route into a regex string built from
its segments left to right (spec 4.1). -/
def pathToRegexStr (route : String) : String :=
  "^" ++ joinSegs ((splitSegs route).map segmentToRegex) ++ "$"

/-- Modelled from the spec: specificity rank of one segment for the route
sorter; a literal outranks a single parameter, which outranks a catch-all
(spec 4.2). Lower rank sorts earlier. -/
def segmentRank (s : String) : Nat :=
  if isDynamicSegment s then
    if strStartsWith (strDrop s 1) "..." || strStartsWith (strDrop s 1) "[..." then 2
    else 1
  else 0

/-- Specificity ranks of every non-empty segment of a route, left to right. -/
def routeRanks (route : String) : List Nat :=
  ((splitSegs route).filter (fun s => s ≠ "")).map segmentRank

/-- Lexicographic strict comparison of rank sequences: the first differing
segment decides, and sequences without a differing segment tie. -/
def ranksLt : List Nat → List Nat → Bool
  | a :: as, b :: bs =>
    if a < b then true else if b < a then false else ranksLt as bs
  | _, _ => false

/-- Strict specificity order between two routes. -/
def routeLt (a b : String) : Bool :=
  ranksLt (routeRanks a) (routeRanks b)

/-- Stable insertion used by the route sorter: a route is placed before the
first element that does not strictly outrank it, so earlier routes keep
their position among ties. -/
def orderedInsertRoute (r : String) : List String → List String
  | [] => [r]
  | x :: xs =>
    if routeLt x r then x :: orderedInsertRoute r xs else r :: x :: xs

/-- Modelled from the spec: `lib/sortedRoutes.getSortedRoutes` is absent
from the snapshot; it is the Route Sorter, a stable sort by segment
specificity with ties kept in discovery order (spec 4.2). -/
def getSortedRoutes : List String → List String
  | [] => []
  | r :: rs => orderedInsertRoute r (getSortedRoutes rs)

/-- Modelled from the spec: `lib/pathToPosix` is absent from the snapshot;
it normalizes a host path to forward-slash form (spec 4.3), replacing every
backslash separator. -/
def pathToPosix (p : String) : String :=
  String.mk (p.toList.map (fun c => if c = '\x5c' then '/' else c))

/-! ### Embedding of `packages/libs/lambda-at-edge/src/build.ts` -/

/-- Final path component of a posix path, as in Node `path.basename`. -/
def basename (p : String) : String :=
  String.mk ((p.toList.reverse.takeWhile (fun c => c ≠ '/')).reverse)

/-- Extension of a path, as in Node `path.extname`: the suffix of the final
component from its last dot, empty when there is no dot or when the only
dot starts the component. -/
def extname (p : String) : String :=
  let cs := (basename p).toList
  let after := (cs.reverse.takeWhile (fun c => c ≠ '.')).reverse
  if after.length = cs.length then ""
  else if after.length + 1 = cs.length then ""
  else String.mk ('.' :: after)

/-- Relative path of `file` under directory `base`, the restriction of Node
`path.relative` to the files-inside-the-base case exercised by the copy
filter of `buildDefaultLambda`. -/
def relativePath (base file : String) : String :=
  if strStartsWith file (base ++ "/") then strDrop file (strLen base + 1) else file

/-- Embedding of `Builder.isPrerenderedJSFile` (build.ts lines 143-163): a
`.js` page file whose extension-stripped route (with a leading slash
prepended when absent and `/index` normalised to the root) appears among the
prerender-manifest routes. The manifest is represented by its route keys. -/
def isPrerenderedJSFile (prerenderRoutes : List String) (relativePageFile : String) : Bool :=
  if extname relativePageFile = ".js" then
    let pageRoute := strDropRight relativePageFile 3
    let pageRoute := if strStartsWith pageRoute "/" then pageRoute else "/" ++ pageRoute
    let pageRoute := if pageRoute = "/index" then "/" else pageRoute
    prerenderRoutes.contains pageRoute
  else false

/-- Embedding of the `fse.copy` filter of `Builder.buildDefaultLambda`
(build.ts lines 246-270) deciding which page source files enter the
default-lambda bundle. -/
def defaultLambdaCopyFilter (hasAPIRoutes : Bool) (prerenderRoutes : List String)
    (pagesDir : String) (file : String) : Bool :=
  let isNotPrerenderedHTMLPage := extname file != ".html"
  let isNotStaticPropsJSONFile := extname file != ".json"
  let isNotApiPage := !(strContainsSub (pathToPosix file) "pages/api")
  let isNotExcludedJSFile :=
    hasAPIRoutes || !(isPrerenderedJSFile prerenderRoutes (relativePath pagesDir file))
  isNotApiPage && isNotPrerenderedHTMLPage && isNotStaticPropsJSONFile && isNotExcludedJSFile

/-- Redirect rule of the routes manifest. -/
structure Redirect where
  source : String
  destination : String
  statusCode : Nat
deriving DecidableEq

/-- Routes manifest consumed by `processAndCopyRoutesManifest`; fields other
than the base path and the redirect list are opaque to that function and are
represented by `otherFields`. -/
structure RoutesManifest where
  basePath : String
  redirects : List Redirect
  otherFields : List (String × String)
deriving DecidableEq

/-- Modelled from the spec: `routing/redirector.isTrailingSlashRedirect` is
absent from the snapshot; it recognizes the automatic trailing-slash
redirects for the configured base path, permanent (308) rules that only add
or strip the trailing slash of a path under the base path (spec 4.6). -/
def isTrailingSlashRedirect (r : Redirect) (basePath : String) : Bool :=
  r.statusCode == 308 &&
    ((r.source == basePath ++ "/:path+/" && r.destination == basePath ++ "/:path+") ||
     (r.source == basePath ++ "/:path+" && r.destination == basePath ++ "/:path+/"))

/-- Embedding of the pure core of `Builder.processAndCopyRoutesManifest`
(build.ts lines 170-179): the manifest written to the bundle is the source
manifest with the automatically handled trailing-slash redirects filtered
out of its redirect list. -/
def processRoutesManifest (rm : RoutesManifest) : RoutesManifest :=
  { rm with redirects := rm.redirects.filter (fun r => !(isTrailingSlashRedirect r rm.basePath)) }

/-- Page-file value of a route in the pages manifest, as in the JavaScript
object access `pagesManifest[route]`. -/
def lookupRoute (pagesManifest : List (String × String)) (r : String) : String :=
  (List.lookup r pagesManifest).getD ""

/-- Embedding of the ordering core of `Builder.readPagesManifest` (build.ts
lines 86-108): the non-dynamic routes are kept in discovery order, then the
dynamic routes are appended in sorted order, each carrying its page file. -/
def sortPagesManifest (pagesManifest : List (String × String)) : List (String × String) :=
  let pagesManifestWithoutDynamicRoutes :=
    pagesManifest.filter (fun e => !(isDynamicRoute e.1))
  let dynamicRoutedPages := (pagesManifest.map Prod.fst).filter isDynamicRoute
  let sortedDynamicRoutedPages := getSortedRoutes dynamicRoutedPages
  pagesManifestWithoutDynamicRoutes ++
    sortedDynamicRoutedPages.map (fun r => (r, lookupRoute pagesManifest r))

/-- Rejection message of `Builder.readPagesManifest` (build.ts line 81). -/
def pagesManifestMissingError : String :=
  "pages-manifest not found. Check if `next.config.js` target is set to \x27serverless\x27"

/-- Embedding of `Builder.readPagesManifest` (build.ts lines 75-109): the
promise rejects with the configuration message when the serverless pages
manifest is absent, and otherwise resolves to the ordered route map. -/
def readPagesManifest (hasServerlessPageManifest : Bool)
    (pagesManifest : List (String × String)) : Except String (List (String × String)) :=
  if !hasServerlessPageManifest then Except.error pagesManifestMissingError
  else Except.ok (sortPagesManifest pagesManifest)

/-- Application runtime configuration object; only the trailing-slash field
is read by the manifest compiler. -/
structure NextConfigObj where
  trailingSlash : Option Bool
deriving DecidableEq

/-- Shape of the loaded `next.config.js` module: a plain object, a producer
function of phase and options, or any other value. -/
inductive NextConfigModule where
  | obj (config : NextConfigObj)
  | producer (f : String → List (String × String) → NextConfigObj)
  | otherValue

/-- Phase constant passed to a producer configuration (build.ts line 438). -/
def nextPhaseProductionServer : String := "phase-production-server"

/-- Embedding of the trailing-slash resolution of
`Builder.prepareBuildManifests` (build.ts lines 427-444): `none` stands for
an absent `next.config.js`, in which case the manifest keeps its initial
`false`; a producer module is applied to the production phase and an empty
options object; a missing field falls back to `false`. -/
def resolveTrailingSlash : Option NextConfigModule → Bool
  | none => false
  | some (NextConfigModule.obj c) => c.trailingSlash.getD false
  | some (NextConfigModule.producer f) =>
    ((f nextPhaseProductionServer []).trailingSlash).getD false
  | some NextConfigModule.otherValue => false

/-- Embedding of `Builder.cleanupDotNext` (build.ts lines 452-466) on the
directory state: `none` stands for a missing `.next` directory and is left
unchanged without failing; otherwise every entry other than `cache` is
removed, so exactly the `cache` entries remain. -/
def cleanupDotNext : Option (List String) → Option (List String)
  | none => none
  | some fileItems => some (fileItems.filter (fun fileItem => fileItem == "cache"))

/-- Entries deleted by `Builder.cleanupDotNext` (the complement list the
source passes to `fse.remove`). -/
def cleanupDotNextRemoved (fileItems : List String) : List String :=
  fileItems.filter (fun fileItem => !(fileItem == "cache"))

/-- Dynamic-route entry of a build manifest: the page file and the compiled
route regex. -/
structure DynamicPageEntry where
  file : String
  regex : String
deriving DecidableEq

/-- Route buckets filled by `Builder.prepareBuildManifests`: the `ssr` and
`html` groups of the default-handler manifest pages and the `apis` group of
the api-handler manifest, each split into dynamic and non-dynamic maps kept
in assignment order. -/
structure BuildBuckets where
  ssrDynamic : List (String × DynamicPageEntry)
  ssrNonDynamic : List (String × String)
  htmlDynamic : List (String × DynamicPageEntry)
  htmlNonDynamic : List (String × String)
  apiDynamic : List (String × DynamicPageEntry)
  apiNonDynamic : List (String × String)
deriving DecidableEq

/-- Initial empty buckets of the two build manifests. -/
def emptyBuckets : BuildBuckets :=
  ⟨[], [], [], [], [], []⟩

/-- Embedding of the `isHtmlPage` classifier (build.ts line 383). -/
def isHtmlPage (p : String) : Bool :=
  strEndsWith p ".html"

/-- Embedding of the `isApiPage` classifier (build.ts line 384). -/
def isApiPage (p : String) : Bool :=
  strStartsWith p "pages/api"

/-- Embedding of one iteration of the classification loop of
`Builder.prepareBuildManifests` (build.ts lines 386-419). -/
def bucketEntry (acc : BuildBuckets) (entry : String × String) : BuildBuckets :=
  let route := entry.1
  let pageFile := entry.2
  let dynamicRoute := isDynamicRoute route
  if isHtmlPage pageFile then
    if dynamicRoute then
      let er := expressifyDynamicRoute route
      { acc with htmlDynamic := insertAssoc er ⟨pageFile, pathToRegexStr er⟩ acc.htmlDynamic }
    else
      { acc with htmlNonDynamic := insertAssoc route pageFile acc.htmlNonDynamic }
  else if isApiPage pageFile then
    if dynamicRoute then
      let er := expressifyDynamicRoute route
      { acc with apiDynamic := insertAssoc er ⟨pageFile, pathToRegexStr er⟩ acc.apiDynamic }
    else
      { acc with apiNonDynamic := insertAssoc route pageFile acc.apiNonDynamic }
  else if dynamicRoute then
    let er := expressifyDynamicRoute route
    { acc with ssrDynamic := insertAssoc er ⟨pageFile, pathToRegexStr er⟩ acc.ssrDynamic }
  else
    { acc with ssrNonDynamic := insertAssoc route pageFile acc.ssrNonDynamic }

/-- Embedding of the classification loop of `Builder.prepareBuildManifests`
(build.ts lines 383-419) over the ordered pages manifest. -/
def prepareGroups (pagesManifest : List (String × String)) : BuildBuckets :=
  pagesManifest.foldl bucketEntry emptyBuckets

/-- Embedding of the `hasAPIPages` test in `Builder.build` (build.ts lines
508-510). -/
def hasAPIPages (buckets : BuildBuckets) : Bool :=
  !(buckets.apiNonDynamic.isEmpty) || !(buckets.apiDynamic.isEmpty)

/-- Output directory name of the default handler (build.ts line 21). -/
def DEFAULT_LAMBDA_CODE_DIR : String := "default-lambda"

/-- Output directory name of the api handler (build.ts line 22). -/
def API_LAMBDA_CODE_DIR : String := "api-lambda"

/-- Artifacts written into the default-lambda bundle by
`Builder.buildDefaultLambda` (build.ts lines 223-281): the optional custom
handler, the handler entrypoint, the manifest, the filtered page source
tree, the prerender manifest and the processed routes manifest. -/
def defaultLambdaArtifacts (handler : Option String) : List String :=
  (match handler with
    | some h => [h]
    | none => []) ++
    ["index.js", "manifest.json", "pages", "prerender-manifest.json",
      "routes-manifest.json"]

/-- Artifacts written into the api-lambda bundle by `Builder.buildApiLambda`
(build.ts lines 312-340): the optional custom handler, the handler
entrypoint, the api source tree, the manifest and the routes manifest. -/
def apiLambdaArtifacts (handler : Option String) : List String :=
  (match handler with
    | some h => [h]
    | none => []) ++
    ["index.js", "pages/api", "manifest.json", "routes-manifest.json"]

/-- Embedding of the bundle-emission tail of `Builder.build` (build.ts lines
501-515): the default-lambda bundle is always produced, the api-lambda
bundle only when the api manifest holds at least one route. -/
def buildBundles (handler : Option String) (buckets : BuildBuckets) :
    List (String × List String) :=
  [(DEFAULT_LAMBDA_CODE_DIR, defaultLambdaArtifacts handler)] ++
    (if hasAPIPages buckets then [(API_LAMBDA_CODE_DIR, apiLambdaArtifacts handler)] else [])

/-! ### Modelled cache-behavior descriptor generator

The serverless component (`component.ts`) is present in the snapshot only
through its test suite, so the generator is modelled from spec 4.7, with
the repository tests fixing the trigger policy of user-declared custom
paths. -/

/-- Trigger mapping of a cache behavior: trigger name to function
reference, in insertion order. -/
abbrev Triggers := List (String × String)

/-- User or emitted configuration of one cache behavior: its `lambda@edge`
trigger mapping plus its remaining settings, which the generator treats as
opaque. -/
structure CacheBehaviorConfig where
  lambdaEdge : Triggers
  settings : List (String × String)
deriving DecidableEq

/-- Kind of behavior from the point of view of trigger merging. -/
inductive BehaviorKind where
  | defaults
  | apiPattern
  | customPath
deriving DecidableEq

/-- Modelled from the spec: trigger merging of the cache-behavior descriptor
generator, whose implementation (`component.ts`) is absent from the
snapshot. On the default behavior the reserved names origin-request and
origin-response are bound to the system function reference and user entries
under them are discarded (spec 4.7); on the api path pattern and, as the
repository tests fix it, on every user-declared custom path, origin-request
is bound to the system reference while every other trigger name passes
through. -/
def generateTriggers (arn : String) : BehaviorKind → Triggers → Triggers
  | BehaviorKind.defaults, user =>
    ("origin-request", arn) :: ("origin-response", arn) ::
      user.filter (fun t => t.1 != "origin-request" && t.1 != "origin-response")
  | BehaviorKind.apiPattern, user =>
    user.filter (fun t => t.1 != "origin-request") ++ [("origin-request", arn)]
  | BehaviorKind.customPath, user =>
    user.filter (fun t => t.1 != "origin-request") ++ [("origin-request", arn)]

/-- User cloudfront input after key classification: the default-behavior
overrides, the overrides of the api path pattern, and the per-path custom
behaviors. -/
structure CloudFrontUserInput where
  defaults : CacheBehaviorConfig
  apiBehavior : CacheBehaviorConfig
  customPaths : List (String × CacheBehaviorConfig)
deriving DecidableEq

/-- Emitted cache-behavior descriptor: the default behavior and the ordered
path-pattern map. -/
structure CloudFrontDescriptor where
  defaults : CacheBehaviorConfig
  pathPatterns : List (String × CacheBehaviorConfig)
deriving DecidableEq

/-- Modelled from the spec: fixed behavior of the static-asset path groups
(spec 4.7, and the repository tests). -/
def systemStaticBehavior : CacheBehaviorConfig :=
  { lambdaEdge := [],
    settings := [("minTTL", "0"), ("defaultTTL", "86400"), ("maxTTL", "31536000")] }

/-- Modelled from the spec: fixed behavior of the data-fetch path group with
both reserved triggers bound to the system reference (spec 4.7, and the
repository tests). -/
def systemDataBehavior (arn : String) : CacheBehaviorConfig :=
  { lambdaEdge := [("origin-request", arn), ("origin-response", arn)],
    settings := [("minTTL", "0"), ("defaultTTL", "0"), ("maxTTL", "31536000")] }

/-- Modelled from the spec: the cache-behavior descriptor generator
(`component.ts` is absent from the snapshot; spec 4.7). User custom paths
are emitted first, then the well-known path groups are assigned over them
with JavaScript object semantics. -/
def generateCloudFront (arn : String) (input : CloudFrontUserInput) : CloudFrontDescriptor :=
  let custom := input.customPaths.map (fun e =>
    (e.1, { lambdaEdge := generateTriggers arn BehaviorKind.customPath e.2.lambdaEdge,
            settings := e.2.settings : CacheBehaviorConfig }))
  let api : CacheBehaviorConfig :=
    { lambdaEdge := generateTriggers arn BehaviorKind.apiPattern input.apiBehavior.lambdaEdge,
      settings := input.apiBehavior.settings }
  let systemPatterns : List (String × CacheBehaviorConfig) :=
    [("_next/static/*", systemStaticBehavior), ("_next/data/*", systemDataBehavior arn),
      ("api/*", api), ("static/*", systemStaticBehavior)]
  { defaults :=
      { lambdaEdge := generateTriggers arn BehaviorKind.defaults input.defaults.lambdaEdge,
        settings := input.defaults.settings },
    pathPatterns := systemPatterns.foldl (fun acc e => insertAssoc e.1 e.2 acc) custom }

/-- Validation error naming an unmatched custom path (as asserted by the
repository tests on invalid cloudfront inputs). -/
def couldNotFindPagesError (p : String) : String :=
  "Could not find next.js pages for \"" ++ p ++ "\""

/-- Modelled from the spec: path validation of the cache-behavior descriptor
generator (`component.ts` is absent from the snapshot); every user-declared
custom path must correspond to a route of the compiled manifest (static,
dynamic, or API), and the first offender aborts generation with an error
naming it (spec 4.7). -/
def checkCloudFrontPaths (manifestRoutes : List String) (customPaths : List String) :
    Except String Unit :=
  match customPaths.find? (fun p => !(manifestRoutes.contains p)) with
  | some p => Except.error (couldNotFindPagesError p)
  | none => Except.ok ()

/-! ### General lemmas about the association-list operations -/

theorem lookup_append {β : Type} (a b : List (String × β)) (k : String) :
    List.lookup k (a ++ b) =
      match List.lookup k a with
      | some v => some v
      | none => List.lookup k b := by
  induction a with
  | nil => rfl
  | cons hd tl ih =>
    obtain ⟨k2, v2⟩ := hd
    by_cases h : k = k2
    · simp [List.lookup, h]
    · have hb : (k == k2) = false := by simp [h]
      simp [List.lookup, hb, ih]

theorem lookup_filter_self_none {β : Type} (l : List (String × β)) (k : String) :
    List.lookup k (l.filter (fun t => t.1 != k)) = none := by
  induction l with
  | nil => rfl
  | cons hd tl ih =>
    obtain ⟨k2, v2⟩ := hd
    by_cases h : k2 = k
    · simp [List.filter, h, ih]
    · have hb : (k2 != k) = true := by simp [h]
      have hb2 : (k == k2) = false := by simp [Ne.symm h]
      simp [List.filter, hb, List.lookup, hb2, ih]

theorem lookup_filter_ne {β : Type} (l : List (String × β)) (bad k : String) (h : k ≠ bad) :
    List.lookup k (l.filter (fun t => t.1 != bad)) = List.lookup k l := by
  induction l with
  | nil => rfl
  | cons hd tl ih =>
    obtain ⟨k2, v2⟩ := hd
    by_cases h2 : k2 = bad
    · have hb : (k2 != bad) = false := by simp [h2]
      have hk : (k == k2) = false := by simp [h2, h]
      simp [List.filter, hb, List.lookup, hk, ih]
    · have hb : (k2 != bad) = true := by simp [h2]
      by_cases h3 : k = k2
      · simp [List.filter, hb, List.lookup, h3]
      · have hk : (k == k2) = false := by simp [h3]
        simp [List.filter, hb, List.lookup, hk, ih]

theorem lookup_filter_ne2 {β : Type} (l : List (String × β)) (b1 b2 k : String)
    (h1 : k ≠ b1) (h2 : k ≠ b2) :
    List.lookup k (l.filter (fun t => t.1 != b1 && t.1 != b2)) = List.lookup k l := by
  induction l with
  | nil => rfl
  | cons hd tl ih =>
    obtain ⟨k2, v2⟩ := hd
    by_cases hk2 : k2 = b1 ∨ k2 = b2
    · have hb : (k2 != b1 && k2 != b2) = false := by
        rcases hk2 with h3 | h3 <;> simp [h3]
      have hk : (k == k2) = false := by
        rcases hk2 with h3 | h3 <;> simp [h3, h1, h2]
      simp [List.filter, hb, List.lookup, hk, ih]
    · push_neg at hk2
      have hb : (k2 != b1 && k2 != b2) = true := by simp [hk2.1, hk2.2]
      by_cases h3 : k = k2
      · simp [List.filter, hb, List.lookup, h3]
      · have hk : (k == k2) = false := by simp [h3]
        simp [List.filter, hb, List.lookup, hk, ih]

theorem lookup_insertAssoc_self {β : Type} (l : List (String × β)) (k : String) (v : β) :
    List.lookup k (insertAssoc k v l) = some v := by
  induction l with
  | nil => simp [insertAssoc, List.lookup]
  | cons hd tl ih =>
    obtain ⟨k2, v2⟩ := hd
    by_cases h : k = k2
    · simp [insertAssoc, h, List.lookup]
    · have hk : (k == k2) = false := by simp [h]
      simp [insertAssoc, h, List.lookup, hk, ih]

theorem lookup_insertAssoc_ne {β : Type} (l : List (String × β)) (k k2 : String) (v : β)
    (h : k ≠ k2) :
    List.lookup k (insertAssoc k2 v l) = List.lookup k l := by
  induction l with
  | nil =>
    have hk : (k == k2) = false := by simp [h]
    simp [insertAssoc, List.lookup, hk]
  | cons hd tl ih =>
    obtain ⟨k3, v3⟩ := hd
    by_cases h2 : k2 = k3
    · have hk : (k == k2) = false := by simp [h]
      simp [insertAssoc, h2, List.lookup, hk]
      have hk3 : (k == k3) = false := by rw [← h2]; simp [h]
      simp [hk3]
    · by_cases h3 : k = k3
      · simp [insertAssoc, h2, List.lookup, h3]
      · have hk : (k == k3) = false := by simp [h3]
        simp [insertAssoc, h2, List.lookup, hk, ih]

theorem lookup_map_value {β γ : Type} (l : List (String × β)) (f : β → γ) (k : String) :
    List.lookup k (l.map (fun e => (e.1, f e.2))) = (List.lookup k l).map f := by
  induction l with
  | nil => rfl
  | cons hd tl ih =>
    obtain ⟨k2, v2⟩ := hd
    by_cases h : k = k2
    · simp [List.lookup, h]
    · have hk : (k == k2) = false := by simp [h]
      simp [List.lookup, hk, ih]

theorem mem_of_lookup {β : Type} (l : List (String × β)) (k : String) (v : β)
    (h : List.lookup k l = some v) : (k, v) ∈ l := by
  induction l with
  | nil => simp [List.lookup] at h
  | cons hd tl ih =>
    obtain ⟨k2, v2⟩ := hd
    by_cases h2 : k = k2
    · subst h2
      simp [List.lookup] at h
      simp [h]
    · have hk : (k == k2) = false := by simp [h2]
      simp [List.lookup, hk] at h
      exact List.mem_cons_of_mem _ (ih h)

theorem lookup_isSome_of_mem_keys {β : Type} (l : List (String × β)) (k : String)
    (h : k ∈ l.map Prod.fst) : ∃ v, List.lookup k l = some v := by
  induction l with
  | nil => simp at h
  | cons hd tl ih =>
    obtain ⟨k2, v2⟩ := hd
    by_cases h2 : k = k2
    · exact ⟨v2, by simp [List.lookup, h2]⟩
    · have hk : (k == k2) = false := by simp [h2]
      rw [List.map_cons, List.mem_cons] at h
      rcases h with h | h
      · exact absurd h h2
      · obtain ⟨v, hv⟩ := ih h
        exact ⟨v, by simp [List.lookup, hk, hv]⟩

theorem orderedInsertRoute_perm (r : String) (l : List String) :
    List.Perm (orderedInsertRoute r l) (r :: l) := by
  induction l with
  | nil => exact List.Perm.refl _
  | cons x xs ih =>
    by_cases h : routeLt x r = true
    · simp only [orderedInsertRoute, h, if_true]
      exact (ih.cons x).trans (List.Perm.swap r x xs)
    · simp only [orderedInsertRoute, h, if_false]
      exact List.Perm.refl _

theorem getSortedRoutes_perm (l : List String) :
    List.Perm (getSortedRoutes l) l := by
  induction l with
  | nil => exact List.Perm.refl _
  | cons r rs ih =>
    exact (orderedInsertRoute_perm r (getSortedRoutes rs)).trans (ih.cons r)

/-! ### Claim theorems -/

/-- C10: `cleanupDotNext` removes every entry of the intermediate build
directory except the entry named `cache`, which is left untouched, and when
the directory does not exist it changes nothing and does not fail. -/
theorem cleanupDotNext_spec :
    cleanupDotNext none = none ∧
    ∀ fileItems : List String,
      cleanupDotNext (some fileItems) =
        some (fileItems.filter (fun e => e == "cache")) ∧
      ∀ e : String,
        (e ∈ cleanupDotNextRemoved fileItems ↔ e ∈ fileItems ∧ e ≠ "cache") ∧
        (e ∈ (cleanupDotNext (some fileItems)).getD [] ↔ e ∈ fileItems ∧ e = "cache") := by
  refine ⟨rfl, fun fileItems => ⟨rfl, fun e => ⟨?_, ?_⟩⟩⟩
  · simp [cleanupDotNextRemoved, List.mem_filter]
  · simp [cleanupDotNext, List.mem_filter]

/-- C7: `readPagesManifest` rejects exactly when the serverless pages
manifest is absent, its message naming the missing artifact and the likely
misconfiguration of the serverless build target, and with the manifest
present it resolves to the ordered route map instead of failing. -/
theorem readPagesManifest_error_spec :
    (∀ m, readPagesManifest false m = Except.error pagesManifestMissingError) ∧
    ContainsStr pagesManifestMissingError "pages-manifest" ∧
    ContainsStr pagesManifestMissingError "serverless" ∧
    ∀ m, readPagesManifest true m = Except.ok (sortPagesManifest m) := by
  refine ⟨fun m => rfl, ?_, ?_, fun m => rfl⟩
  · exact ⟨"",
      " not found. Check if `next.config.js` target is set to \x27serverless\x27", rfl⟩
  · exact ⟨"pages-manifest not found. Check if `next.config.js` target is set to \x27",
      "\x27", rfl⟩

/-- C2: the trailing-slash flag of the build manifest is resolved from the
runtime configuration: a plain object contributes its trailing-slash field,
a producer function is applied to the fixed production phase and an empty
options object and its result contributes the field, and an absent
configuration file, an absent field or any other module shape yields
`false`. -/
theorem resolveTrailingSlash_spec :
    (∀ c, resolveTrailingSlash (some (NextConfigModule.obj c)) = c.trailingSlash.getD false) ∧
    (∀ f, resolveTrailingSlash (some (NextConfigModule.producer f)) =
      ((f nextPhaseProductionServer []).trailingSlash).getD false) ∧
    resolveTrailingSlash none = false ∧
    resolveTrailingSlash (some NextConfigModule.otherValue) = false ∧
    (∀ c, c.trailingSlash = none →
      resolveTrailingSlash (some (NextConfigModule.obj c)) = false) ∧
    (∀ f, (f nextPhaseProductionServer []).trailingSlash = none →
      resolveTrailingSlash (some (NextConfigModule.producer f)) = false) := by
  refine ⟨fun c => rfl, fun f => rfl, rfl, rfl, ?_, ?_⟩
  · intro c h
    simp [resolveTrailingSlash, h]
  · intro f h
    simp [resolveTrailingSlash, h]

/-- Closed instantiation of the trailing-slash resolution: a configuration
object without the field resolves to `false`. -/
theorem resolveTrailingSlash_spec_witness :
    resolveTrailingSlash (some (NextConfigModule.obj ⟨none⟩)) = false :=
  resolveTrailingSlash_spec.2.2.2.2.1 ⟨none⟩ rfl

/-- C6: the routes descriptor written to the page bundle equals the source
routes manifest with exactly the automatically handled trailing-slash
redirects (judged against the configured base path) removed from its
redirect list, every other redirect and every other field preserved
unchanged. -/
theorem processRoutesManifest_spec (rm : RoutesManifest) :
    (processRoutesManifest rm).basePath = rm.basePath ∧
    (processRoutesManifest rm).otherFields = rm.otherFields ∧
    (processRoutesManifest rm).redirects =
      rm.redirects.filter (fun r => !(isTrailingSlashRedirect r rm.basePath)) ∧
    ∀ r, r ∈ (processRoutesManifest rm).redirects ↔
      r ∈ rm.redirects ∧ isTrailingSlashRedirect r rm.basePath = false := by
  refine ⟨rfl, rfl, rfl, fun r => ?_⟩
  simp [processRoutesManifest, List.mem_filter]

/-- Route obtained from a page-file path by the words of the claim: strip
the extension, prepend a leading slash when absent, and map the index route
to the root. -/
def claimPrerenderRoute (relativePageFile : String) : String :=
  let stripped := strDropRight relativePageFile (strLen (extname relativePageFile))
  let slashed := if strStartsWith stripped "/" then stripped else "/" ++ stripped
  if slashed = "/index" then "/" else slashed

/-- C5: a page source file enters the default bundle iff it is not under the
API namespace, not pre-rendered HTML output, not a static-props JSON file
and not a prerender-only JS module, except that with at least one API route
present prerender-only JS modules are copied anyway; and a JS file counts as
prerender-only iff stripping its extension (normalising a leading slash and
mapping the index file to the root route) yields a route listed in the
prerender manifest. -/
theorem defaultLambdaCopyFilter_spec (hasAPIRoutes : Bool) (prerenderRoutes : List String)
    (pagesDir file rel : String) :
    defaultLambdaCopyFilter hasAPIRoutes prerenderRoutes pagesDir file =
      (!(strContainsSub (pathToPosix file) "pages/api") &&
        (extname file != ".html") && (extname file != ".json") &&
        (hasAPIRoutes || !(isPrerenderedJSFile prerenderRoutes (relativePath pagesDir file)))) ∧
    isPrerenderedJSFile prerenderRoutes rel =
      ((extname rel == ".js") && prerenderRoutes.contains (claimPrerenderRoute rel)) := by
  constructor
  · rfl
  · by_cases h : extname rel = ".js"
    · have hb : (extname rel == ".js") = true := by simp [h]
      have h4 : strLen ".js" = 3 := rfl
      simp only [isPrerenderedJSFile, claimPrerenderRoute, h, if_pos, hb, h4,
        beq_self_eq_true, Bool.true_and]
    · have hb : (extname rel == ".js") = false := by simp [h]
      simp [isPrerenderedJSFile, h, hb]

/-- C8: cache-behavior descriptor generation succeeds iff every
user-declared custom path has a corresponding compiled route, any offending
path aborts it with a validation error whose message contains the offending
path, and the path some-invalid-page-route without a matching route fails
with exactly the message the repository test expects. -/
theorem checkCloudFrontPaths_spec (manifestRoutes customPaths : List String) (p : String) :
    (checkCloudFrontPaths manifestRoutes customPaths = Except.ok () ↔
      ∀ q ∈ customPaths, manifestRoutes.contains q = true) ∧
    (p ∈ customPaths → manifestRoutes.contains p = false →
      ∃ q msg, q ∈ customPaths ∧ manifestRoutes.contains q = false ∧
        checkCloudFrontPaths manifestRoutes customPaths = Except.error msg ∧
        ContainsStr msg q) ∧
    (manifestRoutes.contains "some-invalid-page-route" = false →
      checkCloudFrontPaths manifestRoutes ["some-invalid-page-route"] =
        Except.error "Could not find next.js pages for \"some-invalid-page-route\"") := by
  refine ⟨?_, ?_, ?_⟩
  · unfold checkCloudFrontPaths
    cases hf : customPaths.find? (fun q => !(manifestRoutes.contains q)) with
    | none =>
      simp only []
      constructor
      · intro _ q hq
        have := List.find?_eq_none.mp hf q hq
        simpa using this
      · intro _
        trivial
    | some q =>
      simp only []
      constructor
      · intro hcontra
        exact absurd hcontra (by simp)
      · intro hall
        have hq1 := List.find?_some hf
        have hq2 := List.mem_of_find?_eq_some hf
        have hq3 := hall q hq2
        simp at hq1
        simp at hq3
        exact absurd hq3 hq1
  · intro hp hnp
    cases hf : customPaths.find? (fun q => !(manifestRoutes.contains q)) with
    | none =>
      have hmem := List.find?_eq_none.mp hf p hp
      simp at hmem
      simp at hnp
      exact absurd hmem hnp
    | some q =>
      have hq1 := List.find?_some hf
      have hq2 := List.mem_of_find?_eq_some hf
      refine ⟨q, couldNotFindPagesError q, hq2, by simpa using hq1, ?_, ?_⟩
      · unfold checkCloudFrontPaths
        rw [hf]
      · exact ⟨"Could not find next.js pages for \"", "\"", rfl⟩
  · intro h
    have hmem : "some-invalid-page-route" ∉ manifestRoutes := by simpa using h
    simp [checkCloudFrontPaths, List.find?, hmem, couldNotFindPagesError]

/-- Closed instantiation of the custom-path validation: against the routes
of a small compiled manifest, the path some-invalid-page-route fails with
the exact expected message. -/
theorem checkCloudFrontPaths_spec_witness :
    checkCloudFrontPaths ["/", "/terms", "/customers/:customer", "/api/getCustomers"]
        ["some-invalid-page-route"] =
      Except.error "Could not find next.js pages for \"some-invalid-page-route\"" :=
  (checkCloudFrontPaths_spec ["/", "/terms", "/customers/:customer", "/api/getCustomers"]
    ["some-invalid-page-route"] "some-invalid-page-route").2.2 (by decide)

/-- C9 fails as stated: a successful build over an output without any API
route emits only the default-lambda bundle, no api-lambda bundle. -/
theorem buildBundles_counterexample :
    (buildBundles none (prepareGroups [("/", "pages/index.js")])).map Prod.fst =
      [DEFAULT_LAMBDA_CODE_DIR] ∧
    API_LAMBDA_CODE_DIR ∉
      (buildBundles none (prepareGroups [("/", "pages/index.js")])).map Prod.fst := by
  constructor
  · rfl
  · decide

/-- C9 amended: a successful build always emits the default-lambda bundle
(with its handler entrypoint, page source tree and manifest) and emits the
api-lambda bundle (with its handler entrypoint, api source tree and
manifest) iff the build output contains at least one API route. -/
theorem buildBundles_spec (handler : Option String) (buckets : BuildBuckets) :
    (DEFAULT_LAMBDA_CODE_DIR, defaultLambdaArtifacts handler) ∈ buildBundles handler buckets ∧
    ((API_LAMBDA_CODE_DIR, apiLambdaArtifacts handler) ∈ buildBundles handler buckets ↔
      hasAPIPages buckets = true) ∧
    "index.js" ∈ defaultLambdaArtifacts handler ∧
    "manifest.json" ∈ defaultLambdaArtifacts handler ∧
    "pages" ∈ defaultLambdaArtifacts handler ∧
    "routes-manifest.json" ∈ defaultLambdaArtifacts handler ∧
    "index.js" ∈ apiLambdaArtifacts handler ∧
    "pages/api" ∈ apiLambdaArtifacts handler ∧
    "manifest.json" ∈ apiLambdaArtifacts handler := by
  have hne : API_LAMBDA_CODE_DIR ≠ DEFAULT_LAMBDA_CODE_DIR := by decide
  refine ⟨?_, ?_, ?_, ?_, ?_, ?_, ?_, ?_, ?_⟩
  · simp [buildBundles]
  · by_cases h : hasAPIPages buckets = true
    · simp [buildBundles, h]
    · simp [buildBundles, h, hne]
  all_goals cases handler <;> simp [defaultLambdaArtifacts, apiLambdaArtifacts]

/-- Names of the well-known path groups emitted by the generator. -/
def systemPatternNames : List String :=
  ["_next/static/*", "_next/data/*", "api/*", "static/*"]

theorem generateTriggers_defaults_or (arn : String) (user : Triggers) :
    List.lookup "origin-request" (generateTriggers arn BehaviorKind.defaults user) = some arn := by
  simp [generateTriggers, List.lookup]

theorem generateTriggers_defaults_ors (arn : String) (user : Triggers) :
    List.lookup "origin-response" (generateTriggers arn BehaviorKind.defaults user) = some arn := by
  have h : ("origin-response" == "origin-request") = false := by decide
  simp [generateTriggers, List.lookup, h]

theorem generateTriggers_defaults_other (arn : String) (user : Triggers) (k : String)
    (h1 : k ≠ "origin-request") (h2 : k ≠ "origin-response") :
    List.lookup k (generateTriggers arn BehaviorKind.defaults user) = List.lookup k user := by
  have hb1 : (k == "origin-request") = false := by simp [h1]
  have hb2 : (k == "origin-response") = false := by simp [h2]
  simp only [generateTriggers, List.lookup, hb1, hb2]
  exact lookup_filter_ne2 user "origin-request" "origin-response" k h1 h2

theorem generateTriggers_api_or (arn : String) (user : Triggers) :
    List.lookup "origin-request" (generateTriggers arn BehaviorKind.apiPattern user) = some arn := by
  simp only [generateTriggers]
  rw [lookup_append, lookup_filter_self_none]
  simp [List.lookup]

theorem generateTriggers_api_other (arn : String) (user : Triggers) (k : String)
    (h : k ≠ "origin-request") :
    List.lookup k (generateTriggers arn BehaviorKind.apiPattern user) = List.lookup k user := by
  simp only [generateTriggers]
  rw [lookup_append, lookup_filter_ne user "origin-request" k h]
  cases hl : List.lookup k user with
  | some v => rfl
  | none =>
    have hb : (k == "origin-request") = false := by simp [h]
    simp [List.lookup, hb]

theorem generateTriggers_custom_or (arn : String) (user : Triggers) :
    List.lookup "origin-request" (generateTriggers arn BehaviorKind.customPath user) = some arn := by
  simp only [generateTriggers]
  rw [lookup_append, lookup_filter_self_none]
  simp [List.lookup]

theorem generateTriggers_custom_other (arn : String) (user : Triggers) (k : String)
    (h : k ≠ "origin-request") :
    List.lookup k (generateTriggers arn BehaviorKind.customPath user) = List.lookup k user := by
  simp only [generateTriggers]
  rw [lookup_append, lookup_filter_ne user "origin-request" k h]
  cases hl : List.lookup k user with
  | some v => rfl
  | none =>
    have hb : (k == "origin-request") = false := by simp [h]
    simp [List.lookup, hb]

theorem generateCloudFront_pathPatterns (arn : String) (input : CloudFrontUserInput) :
    (generateCloudFront arn input).pathPatterns =
      insertAssoc "static/*" systemStaticBehavior
        (insertAssoc "api/*"
          ⟨generateTriggers arn BehaviorKind.apiPattern input.apiBehavior.lambdaEdge,
            input.apiBehavior.settings⟩
          (insertAssoc "_next/data/*" (systemDataBehavior arn)
            (insertAssoc "_next/static/*" systemStaticBehavior
              (input.customPaths.map (fun e =>
                (e.1, ⟨generateTriggers arn BehaviorKind.customPath e.2.lambdaEdge,
                  e.2.settings⟩)))))) := rfl

/-- C1 amended: in the emitted descriptor the default behavior always
carries the system function reference under origin-request and
origin-response and the api path pattern carries it under origin-request,
user values under those reserved names on those behaviors being discarded;
every other trigger name on those behaviors and the non-trigger settings
pass through unmodified; but on every user-declared custom path behavior the
origin-request trigger is likewise system-owned (the user value is
discarded) while its other trigger names and settings pass through. -/
theorem generateCloudFront_triggers (arn : String) (input : CloudFrontUserInput)
    (k p : String) (cb : CacheBehaviorConfig) :
    (List.lookup "origin-request" (generateCloudFront arn input).defaults.lambdaEdge = some arn ∧
      List.lookup "origin-response" (generateCloudFront arn input).defaults.lambdaEdge = some arn ∧
      (generateCloudFront arn input).defaults.settings = input.defaults.settings) ∧
    (k ≠ "origin-request" → k ≠ "origin-response" →
      List.lookup k (generateCloudFront arn input).defaults.lambdaEdge =
        List.lookup k input.defaults.lambdaEdge) ∧
    (∃ api, List.lookup "api/*" (generateCloudFront arn input).pathPatterns = some api ∧
      List.lookup "origin-request" api.lambdaEdge = some arn ∧
      api.settings = input.apiBehavior.settings ∧
      (k ≠ "origin-request" →
        List.lookup k api.lambdaEdge = List.lookup k input.apiBehavior.lambdaEdge)) ∧
    (List.lookup p input.customPaths = some cb → p ∉ systemPatternNames →
      ∃ out, List.lookup p (generateCloudFront arn input).pathPatterns = some out ∧
        List.lookup "origin-request" out.lambdaEdge = some arn ∧
        out.settings = cb.settings ∧
        (k ≠ "origin-request" →
          List.lookup k out.lambdaEdge = List.lookup k cb.lambdaEdge)) := by
  refine ⟨⟨?_, ?_, rfl⟩, ?_, ?_, ?_⟩
  · exact generateTriggers_defaults_or arn input.defaults.lambdaEdge
  · exact generateTriggers_defaults_ors arn input.defaults.lambdaEdge
  · intro h1 h2
    exact generateTriggers_defaults_other arn input.defaults.lambdaEdge k h1 h2
  · refine ⟨⟨generateTriggers arn BehaviorKind.apiPattern input.apiBehavior.lambdaEdge,
      input.apiBehavior.settings⟩, ?_, ?_, rfl, ?_⟩
    · rw [generateCloudFront_pathPatterns]
      rw [lookup_insertAssoc_ne _ _ _ _ (by decide)]
      exact lookup_insertAssoc_self _ _ _
    · exact generateTriggers_api_or arn input.apiBehavior.lambdaEdge
    · intro h
      exact generateTriggers_api_other arn input.apiBehavior.lambdaEdge k h
  · intro hlk hp
    simp only [systemPatternNames, List.mem_cons, List.mem_singleton] at hp
    push_neg at hp
    obtain ⟨hp1, hp2, hp3, hp4, -⟩ := hp
    refine ⟨⟨generateTriggers arn BehaviorKind.customPath cb.lambdaEdge, cb.settings⟩,
      ?_, ?_, rfl, ?_⟩
    · rw [generateCloudFront_pathPatterns]
      rw [lookup_insertAssoc_ne _ _ _ _ hp4, lookup_insertAssoc_ne _ _ _ _ hp3,
        lookup_insertAssoc_ne _ _ _ _ hp2, lookup_insertAssoc_ne _ _ _ _ hp1]
      rw [lookup_map_value input.customPaths
        (fun c => (⟨generateTriggers arn BehaviorKind.customPath c.lambdaEdge,
          c.settings⟩ : CacheBehaviorConfig)) p]
      rw [hlk]
      rfl
    · exact generateTriggers_custom_or arn cb.lambdaEdge
    · intro h
      exact generateTriggers_custom_other arn cb.lambdaEdge k h

/-- Function reference published for the system router in the repository
tests. -/
def c1Arn : String := "arn:aws:lambda:us-east-1:123456789012:function:my-func:v1"

/-- User cloudfront input mirroring the repository tests: a viewer-request
trigger on the default behavior, an origin-response trigger on the api
behavior, and an origin-request trigger on the custom /terms path. -/
def c1Input : CloudFrontUserInput :=
  { defaults := ⟨[("viewer-request", "used value")], [("minTTL", "0")]⟩,
    apiBehavior := ⟨[("origin-response", "used value")], [("minTTL", "500")]⟩,
    customPaths := [("/terms", ⟨[("origin-request", "ignored value")], [("minTTL", "5500")]⟩)] }

/-- Closed instantiation of the amended descriptor-generator property at the
test configuration. -/
theorem generateCloudFront_triggers_witness :
    List.lookup "origin-request" (generateCloudFront c1Arn c1Input).defaults.lambdaEdge =
      some c1Arn ∧
    List.lookup "viewer-request" (generateCloudFront c1Arn c1Input).defaults.lambdaEdge =
      List.lookup "viewer-request" c1Input.defaults.lambdaEdge ∧
    ∃ out, List.lookup "/terms" (generateCloudFront c1Arn c1Input).pathPatterns = some out ∧
      List.lookup "origin-request" out.lambdaEdge = some c1Arn := by
  have h := generateCloudFront_triggers c1Arn c1Input "viewer-request" "/terms"
    ⟨[("origin-request", "ignored value")], [("minTTL", "5500")]⟩
  refine ⟨h.1.1, h.2.1 (by decide) (by decide), ?_⟩
  obtain ⟨out, h1, h2, -, -⟩ := h.2.2.2 (by decide) (by decide)
  exact ⟨out, h1, h2⟩

/-- C1 fails as stated: on the user-declared custom path /terms the emitted
behavior does not pass the user-supplied origin-request trigger through
unmodified but replaces it with the system function reference, exactly as
the repository test on custom page cache behaviors expects. -/
theorem generateCloudFront_counterexample :
    List.lookup "origin-request"
        ((((generateCloudFront c1Arn c1Input).pathPatterns.lookup "/terms").getD
          ⟨[], []⟩).lambdaEdge) = some c1Arn ∧
    List.lookup "origin-request"
        ((((generateCloudFront c1Arn c1Input).pathPatterns.lookup "/terms").getD
          ⟨[], []⟩).lambdaEdge) ≠ some "ignored value" := by
  constructor
  · decide
  · decide

/-- C4: the ordered route map returned by `readPagesManifest` is the
discovery-ordered non-dynamic entries followed by the dynamic entries in
exactly the order produced by the route sorter, every non-dynamic entry
preceding every dynamic one, and every returned entry keeps its original
page-file value from the pages manifest. -/
theorem readPagesManifest_order (m : List (String × String)) :
    ∃ dynPart,
      readPagesManifest true m =
        Except.ok ((m.filter (fun e => !(isDynamicRoute e.1))) ++ dynPart) ∧
      dynPart.map Prod.fst = getSortedRoutes ((m.map Prod.fst).filter isDynamicRoute) ∧
      (∀ e ∈ m.filter (fun e2 => !(isDynamicRoute e2.1)),
        isDynamicRoute e.1 = false ∧ e ∈ m) ∧
      (∀ e ∈ dynPart, isDynamicRoute e.1 = true ∧ e ∈ m) := by
  refine ⟨(getSortedRoutes ((m.map Prod.fst).filter isDynamicRoute)).map
      (fun r => (r, lookupRoute m r)), rfl, ?_, ?_, ?_⟩
  · rw [List.map_map]
    have hid : (Prod.fst ∘ fun r => (r, lookupRoute m r)) = id := rfl
    rw [hid, List.map_id]
  · intro e he
    rw [List.mem_filter] at he
    obtain ⟨he1, he2⟩ := he
    simp at he2
    exact ⟨he2, he1⟩
  · intro e he
    rw [List.mem_map] at he
    obtain ⟨r, hr, hre⟩ := he
    have hr2 : r ∈ (m.map Prod.fst).filter isDynamicRoute :=
      (getSortedRoutes_perm _).mem_iff.mp hr
    rw [List.mem_filter] at hr2
    obtain ⟨hr3, hr4⟩ := hr2
    obtain ⟨v, hv⟩ := lookup_isSome_of_mem_keys m r hr3
    have hval : lookupRoute m r = v := by simp [lookupRoute, hv]
    constructor
    · rw [← hre]
      exact hr4
    · rw [← hre, hval]
      exact mem_of_lookup m r v hv

theorem insertAssoc_eq_append {β : Type} (l : List (String × β)) (k : String) (v : β)
    (h : k ∉ l.map Prod.fst) : insertAssoc k v l = l ++ [(k, v)] := by
  induction l with
  | nil => rfl
  | cons hd tl ih =>
    obtain ⟨k2, v2⟩ := hd
    rw [List.map_cons, List.mem_cons] at h
    push_neg at h
    simp [insertAssoc, h.1, ih h.2]

/-- Dynamic-bucket entry derived from a manifest entry by the words of the
claim: keyed by the expressified route, carrying the page file and the
compiled regex. -/
def expressEntry (e : String × String) : String × DynamicPageEntry :=
  (expressifyDynamicRoute e.1, ⟨e.2, pathToRegexStr (expressifyDynamicRoute e.1)⟩)

/-- Claim-side html dynamic bucket: entries with static-markup output and a
bracketed route. -/
def specHtmlDynamic (m : List (String × String)) : List (String × DynamicPageEntry) :=
  (m.filter (fun e => isHtmlPage e.2 && isDynamicRoute e.1)).map expressEntry

/-- Claim-side html non-dynamic bucket. -/
def specHtmlNonDynamic (m : List (String × String)) : List (String × String) :=
  m.filter (fun e => isHtmlPage e.2 && !(isDynamicRoute e.1))

/-- Claim-side API dynamic bucket: non-markup entries under the API
namespace with a bracketed route. -/
def specApiDynamic (m : List (String × String)) : List (String × DynamicPageEntry) :=
  (m.filter (fun e => !(isHtmlPage e.2) && isApiPage e.2 && isDynamicRoute e.1)).map expressEntry

/-- Claim-side API non-dynamic bucket. -/
def specApiNonDynamic (m : List (String × String)) : List (String × String) :=
  m.filter (fun e => !(isHtmlPage e.2) && isApiPage e.2 && !(isDynamicRoute e.1))

/-- Claim-side ssr dynamic bucket: the remaining entries with a bracketed
route. -/
def specSsrDynamic (m : List (String × String)) : List (String × DynamicPageEntry) :=
  (m.filter (fun e => !(isHtmlPage e.2) && !(isApiPage e.2) && isDynamicRoute e.1)).map expressEntry

/-- Claim-side ssr non-dynamic bucket. -/
def specSsrNonDynamic (m : List (String × String)) : List (String × String) :=
  m.filter (fun e => !(isHtmlPage e.2) && !(isApiPage e.2) && !(isDynamicRoute e.1))

/-- C3: the classification loop of the manifest compiler buckets every
pages-manifest entry deterministically: static-markup output goes to the
html group, otherwise files under the API namespace to the API group,
otherwise to the ssr group; inside each group an entry lands in the dynamic
sub-bucket (keyed by the expressified route, carrying file and compiled
regex) iff its route template has a bracketed segment, and in the
non-dynamic sub-bucket (route mapped to file) otherwise. The bucket keys
are assumed distinct, as they are for JavaScript object keys. -/
theorem prepareGroups_spec (m : List (String × String))
    (h1 : ((specSsrDynamic m).map Prod.fst).Nodup)
    (h2 : ((specSsrNonDynamic m).map Prod.fst).Nodup)
    (h3 : ((specHtmlDynamic m).map Prod.fst).Nodup)
    (h4 : ((specHtmlNonDynamic m).map Prod.fst).Nodup)
    (h5 : ((specApiDynamic m).map Prod.fst).Nodup)
    (h6 : ((specApiNonDynamic m).map Prod.fst).Nodup) :
    prepareGroups m =
      ⟨specSsrDynamic m, specSsrNonDynamic m, specHtmlDynamic m,
        specHtmlNonDynamic m, specApiDynamic m, specApiNonDynamic m⟩ := by
  revert h1 h2 h3 h4 h5 h6
  induction m using List.reverseRecOn with
  | nil => intro h1 h2 h3 h4 h5 h6; rfl
  | append_singleton m e ih =>
    intro h1 h2 h3 h4 h5 h6
    obtain ⟨route, pageFile⟩ := e
    have hstep : prepareGroups (m ++ [(route, pageFile)]) =
        bucketEntry (prepareGroups m) (route, pageFile) := by
      simp [prepareGroups, List.foldl_append]
    cases hh : isHtmlPage pageFile with
    | true =>
      have e1 : specSsrDynamic (m ++ [(route, pageFile)]) = specSsrDynamic m := by
        simp [specSsrDynamic, List.filter_append, hh]
      have e2 : specSsrNonDynamic (m ++ [(route, pageFile)]) = specSsrNonDynamic m := by
        simp [specSsrNonDynamic, List.filter_append, hh]
      have e5 : specApiDynamic (m ++ [(route, pageFile)]) = specApiDynamic m := by
        simp [specApiDynamic, List.filter_append, hh]
      have e6 : specApiNonDynamic (m ++ [(route, pageFile)]) = specApiNonDynamic m := by
        simp [specApiNonDynamic, List.filter_append, hh]
      rw [e1] at h1
      rw [e2] at h2
      rw [e5] at h5
      rw [e6] at h6
      cases hd : isDynamicRoute route with
      | true =>
        have e3 : specHtmlDynamic (m ++ [(route, pageFile)]) =
            specHtmlDynamic m ++ [expressEntry (route, pageFile)] := by
          simp [specHtmlDynamic, List.filter_append, hh, hd]
        have e4 : specHtmlNonDynamic (m ++ [(route, pageFile)]) = specHtmlNonDynamic m := by
          simp [specHtmlNonDynamic, List.filter_append, hh, hd]
        rw [e3, List.map_append, List.map_singleton] at h3
        rw [e4] at h4
        have h3p := (List.perm_append_singleton _ _).nodup_iff.mp h3
        obtain ⟨hkey, h3m⟩ := List.nodup_cons.mp h3p
        have hkey2 : expressifyDynamicRoute route ∉ (specHtmlDynamic m).map Prod.fst := by
          simpa [expressEntry] using hkey
        rw [hstep, ih h1 h2 h3m h4 h5 h6, e1, e2, e3, e4, e5, e6]
        simp [bucketEntry, hh, hd, expressEntry]
        rw [insertAssoc_eq_append _ _ _ hkey2]
      | false =>
        have e3 : specHtmlDynamic (m ++ [(route, pageFile)]) = specHtmlDynamic m := by
          simp [specHtmlDynamic, List.filter_append, hh, hd]
        have e4 : specHtmlNonDynamic (m ++ [(route, pageFile)]) =
            specHtmlNonDynamic m ++ [(route, pageFile)] := by
          simp [specHtmlNonDynamic, List.filter_append, hh, hd]
        rw [e3] at h3
        rw [e4, List.map_append, List.map_singleton] at h4
        have h4p := (List.perm_append_singleton _ _).nodup_iff.mp h4
        obtain ⟨hkey, h4m⟩ := List.nodup_cons.mp h4p
        have hkey2 : route ∉ (specHtmlNonDynamic m).map Prod.fst := hkey
        rw [hstep, ih h1 h2 h3 h4m h5 h6, e1, e2, e3, e4, e5, e6]
        simp [bucketEntry, hh, hd]
        rw [insertAssoc_eq_append _ _ _ hkey2]
    | false =>
      have e3 : specHtmlDynamic (m ++ [(route, pageFile)]) = specHtmlDynamic m := by
        simp [specHtmlDynamic, List.filter_append, hh]
      have e4 : specHtmlNonDynamic (m ++ [(route, pageFile)]) = specHtmlNonDynamic m := by
        simp [specHtmlNonDynamic, List.filter_append, hh]
      rw [e3] at h3
      rw [e4] at h4
      cases ha : isApiPage pageFile with
      | true =>
        have e1 : specSsrDynamic (m ++ [(route, pageFile)]) = specSsrDynamic m := by
          simp [specSsrDynamic, List.filter_append, ha]
        have e2 : specSsrNonDynamic (m ++ [(route, pageFile)]) = specSsrNonDynamic m := by
          simp [specSsrNonDynamic, List.filter_append, ha]
        rw [e1] at h1
        rw [e2] at h2
        cases hd : isDynamicRoute route with
        | true =>
          have e5 : specApiDynamic (m ++ [(route, pageFile)]) =
              specApiDynamic m ++ [expressEntry (route, pageFile)] := by
            simp [specApiDynamic, List.filter_append, hh, ha, hd]
          have e6 : specApiNonDynamic (m ++ [(route, pageFile)]) = specApiNonDynamic m := by
            simp [specApiNonDynamic, List.filter_append, hh, ha, hd]
          rw [e5, List.map_append, List.map_singleton] at h5
          rw [e6] at h6
          have h5p := (List.perm_append_singleton _ _).nodup_iff.mp h5
          obtain ⟨hkey, h5m⟩ := List.nodup_cons.mp h5p
          have hkey2 : expressifyDynamicRoute route ∉ (specApiDynamic m).map Prod.fst := by
            simpa [expressEntry] using hkey
          rw [hstep, ih h1 h2 h3 h4 h5m h6, e1, e2, e3, e4, e5, e6]
          simp [bucketEntry, hh, ha, hd, expressEntry]
          rw [insertAssoc_eq_append _ _ _ hkey2]
        | false =>
          have e5 : specApiDynamic (m ++ [(route, pageFile)]) = specApiDynamic m := by
            simp [specApiDynamic, List.filter_append, hh, ha, hd]
          have e6 : specApiNonDynamic (m ++ [(route, pageFile)]) =
              specApiNonDynamic m ++ [(route, pageFile)] := by
            simp [specApiNonDynamic, List.filter_append, hh, ha, hd]
          rw [e5] at h5
          rw [e6, List.map_append, List.map_singleton] at h6
          have h6p := (List.perm_append_singleton _ _).nodup_iff.mp h6
          obtain ⟨hkey, h6m⟩ := List.nodup_cons.mp h6p
          have hkey2 : route ∉ (specApiNonDynamic m).map Prod.fst := hkey
          rw [hstep, ih h1 h2 h3 h4 h5 h6m, e1, e2, e3, e4, e5, e6]
          simp [bucketEntry, hh, ha, hd]
          rw [insertAssoc_eq_append _ _ _ hkey2]
      | false =>
        have e5 : specApiDynamic (m ++ [(route, pageFile)]) = specApiDynamic m := by
          simp [specApiDynamic, List.filter_append, ha]
        have e6 : specApiNonDynamic (m ++ [(route, pageFile)]) = specApiNonDynamic m := by
          simp [specApiNonDynamic, List.filter_append, ha]
        rw [e5] at h5
        rw [e6] at h6
        cases hd : isDynamicRoute route with
        | true =>
          have e1 : specSsrDynamic (m ++ [(route, pageFile)]) =
              specSsrDynamic m ++ [expressEntry (route, pageFile)] := by
            simp [specSsrDynamic, List.filter_append, hh, ha, hd]
          have e2 : specSsrNonDynamic (m ++ [(route, pageFile)]) = specSsrNonDynamic m := by
            simp [specSsrNonDynamic, List.filter_append, hh, ha, hd]
          rw [e1, List.map_append, List.map_singleton] at h1
          rw [e2] at h2
          have h1p := (List.perm_append_singleton _ _).nodup_iff.mp h1
          obtain ⟨hkey, h1m⟩ := List.nodup_cons.mp h1p
          have hkey2 : expressifyDynamicRoute route ∉ (specSsrDynamic m).map Prod.fst := by
            simpa [expressEntry] using hkey
          rw [hstep, ih h1m h2 h3 h4 h5 h6, e1, e2, e3, e4, e5, e6]
          simp [bucketEntry, hh, ha, hd, expressEntry]
          rw [insertAssoc_eq_append _ _ _ hkey2]
        | false =>
          have e1 : specSsrDynamic (m ++ [(route, pageFile)]) = specSsrDynamic m := by
            simp [specSsrDynamic, List.filter_append, hh, ha, hd]
          have e2 : specSsrNonDynamic (m ++ [(route, pageFile)]) =
              specSsrNonDynamic m ++ [(route, pageFile)] := by
            simp [specSsrNonDynamic, List.filter_append, hh, ha, hd]
          rw [e1] at h1
          rw [e2, List.map_append, List.map_singleton] at h2
          have h2p := (List.perm_append_singleton _ _).nodup_iff.mp h2
          obtain ⟨hkey, h2m⟩ := List.nodup_cons.mp h2p
          have hkey2 : route ∉ (specSsrNonDynamic m).map Prod.fst := hkey
          rw [hstep, ih h1 h2m h3 h4 h5 h6, e1, e2, e3, e4, e5, e6]
          simp [bucketEntry, hh, ha, hd]
          rw [insertAssoc_eq_append _ _ _ hkey2]

/-- Small pages manifest exercising all six buckets. -/
def c3Manifest : List (String × String) :=
  [("/", "pages/index.js"),
    ("/terms", "pages/terms.html"),
    ("/api/getCustomers", "pages/api/getCustomers.js"),
    ("/blog/[id]", "pages/blog/[id].js"),
    ("/api/blog/[id]", "pages/api/blog/[id].js"),
    ("/t/[x]", "pages/t/[x].html")]

/-- Closed instantiation of the bucketing characterization on a manifest
exercising every bucket. -/
theorem prepareGroups_spec_witness :
    ((specSsrDynamic c3Manifest).map Prod.fst).Nodup ∧
    ((specApiDynamic c3Manifest).map Prod.fst).Nodup ∧
    prepareGroups c3Manifest =
      ⟨specSsrDynamic c3Manifest, specSsrNonDynamic c3Manifest, specHtmlDynamic c3Manifest,
        specHtmlNonDynamic c3Manifest, specApiDynamic c3Manifest,
        specApiNonDynamic c3Manifest⟩ :=
  ⟨by decide, by decide,
    prepareGroups_spec c3Manifest (by decide) (by decide) (by decide) (by decide)
      (by decide) (by decide)⟩

/-- Small pages manifest with one dynamic and two non-dynamic routes. -/
def c4Manifest : List (String × String) :=
  [("/", "pages/index.js"),
    ("/customers/[customer]", "pages/customers/[customer].js"),
    ("/terms", "pages/terms.html")]

/-- Closed instantiation of the ordering property of `readPagesManifest` on
a concrete manifest. -/
theorem readPagesManifest_order_witness :
    ∃ dynPart,
      readPagesManifest true c4Manifest =
        Except.ok ((c4Manifest.filter (fun e => !(isDynamicRoute e.1))) ++ dynPart) ∧
      dynPart.map Prod.fst =
        getSortedRoutes ((c4Manifest.map Prod.fst).filter isDynamicRoute) ∧
      (isDynamicRoute "/" = false ∧ ("/", "pages/index.js") ∈ c4Manifest) := by
  obtain ⟨dynPart, ha, hb, hc, -⟩ := readPagesManifest_order c4Manifest
  refine ⟨dynPart, ha, hb, ?_⟩
  have := hc ("/", "pages/index.js") (by decide)
  exact this
